import Mathlib

/-!
Verification of the UFDR retrieval backend (parser.py, database_builder.py,
main.py) against its specification.

The source is shallowly embedded:
* XML documents (as produced by `BeautifulSoup(content, 'xml')`) are modelled
  by the tree type `XNode`; `bs4` element lookups `tag.find`, `tag.find_all`,
  `tag.text` and `tag.get` are modelled by `XNode.findFirst`, `XNode.findAll`
  (document pre-order over all descendants), `XNode.allText` (concatenation of
  every string in a subtree) and `XNode.attr`.
* `BeautifulSoup(content, 'xml')` itself builds an `lxml` parser with
  `recover=True`: it never raises on ill-formed markup, it always yields a
  (possibly element-free) document.  It is therefore modelled as a TOTAL
  function parameter `parseXml : String → XNode` of the functions that use it.
* A zip archive is modelled as its member list in archive order,
  `(name, content)` pairs; `zf.read` is modelled as looking at the content.
* Python dicts produced by the parser are modelled by the closed variant type
  `Record`; the `json.dumps(item)` fallback of `database_builder.py` for a
  dict of any other shape is modelled by a `Record.other` variant carrying its
  serialization.
* The sentence-transformer embedding model is opaque: an arbitrary function
  `embed : String → List Int` (vector components modelled as exact integers;
  no floating-point rounding is load-bearing for any spec claim).
* The FAISS `IndexFlatL2` of `build_database`/`query_index` is modelled by the
  list of its vectors; `Index.search` is modelled by `knnSearch` following the
  documented FAISS semantics: exact squared-L2 k-nearest-neighbour, results
  ordered by ascending distance, and — when the index holds fewer than `k`
  vectors — the result padded to exactly `k` entries with label `-1` and the
  maximal float as distance.
* The sqlite table `chunks (id INTEGER PRIMARY KEY, content TEXT)` is
  modelled by its row list in ascending-id (storage) order; the query
  `SELECT content FROM chunks WHERE id IN (...)` returns the matching rows in
  storage order (sqlite iterates the deduplicated, sorted IN-list /
  primary-key index; it does not reorder by the IN-list), modelled by
  `fetchChunks`.  The db file lifecycle of `build_database` (os.remove if
  present, CREATE TABLE IF NOT EXISTS, bulk INSERT of `enumerate(texts)`) is
  modelled by `DbFile` and `rebuildStore`.
-/

/-- An XML node as seen through BeautifulSoup: an element with a name,
attributes and children, or a text node. -/
inductive XNode where
  | text (s : String)
  | elem (name : String) (attrs : List (String × String)) (children : List XNode)

mutual

/-- bs4 `tag.text`: the concatenation of every string in the subtree. -/
def XNode.allText : XNode → String
  | .text s => s
  | .elem _ _ cs => XNode.allTextL cs

def XNode.allTextL : List XNode → String
  | [] => ""
  | c :: cs => XNode.allText c ++ XNode.allTextL cs

end

mutual

/-- bs4 `tag.find_all(nm)`: every descendant element named `nm`, in document
(pre-)order; the tag itself is not included. -/
def XNode.findAll (nm : String) : XNode → List XNode
  | .text _ => []
  | .elem _ _ cs => XNode.findAllL nm cs

def XNode.findAllL (nm : String) : List XNode → List XNode
  | [] => []
  | c :: cs =>
      (match c with
       | .elem n a k => if n = nm then [XNode.elem n a k] else []
       | .text _ => []) ++ XNode.findAll nm c ++ XNode.findAllL nm cs

end

/-- bs4 `tag.find(nm)`: the first descendant element named `nm` (document
order), if any. -/
def XNode.findFirst (nm : String) (t : XNode) : Option XNode :=
  (XNode.findAll nm t).head?

/-- bs4 `tag.get(key)`: attribute lookup. -/
def XNode.attr (key : String) : XNode → Option String
  | .text _ => none
  | .elem _ attrs _ => (attrs.find? (fun p => p.1 = key)).map Prod.snd

/-- The uniform record model: the dicts produced by `parser.py`, tagged by
their `'type'` key.  `other` models a dict of any other shape, carrying the
`json.dumps` serialization that `database_builder.py` would emit for it. -/
inductive Record where
  | chat (timestamp sender content : String)
  | call (timestamp direction number_or_contact : String)
  | contact (name number : String)
  | other (dump : String)
deriving DecidableEq, Repr

/-- Python `str.strip()`: drop whitespace from both ends (modelled over the
character list so the kernel can evaluate it; the ASCII whitespace set of
`Char.isWhitespace` covers every character these reports use). -/
def pyStrip (s : String) : String :=
  String.mk (((s.data.dropWhile Char.isWhitespace).reverse.dropWhile
    Char.isWhitespace).reverse)

/-- `parser.py` helper `find_text(tag, name)`: the stripped text of the first
descendant named `name`, or the sentinel `"Unknown"` when absent. -/
def find_text (tag : XNode) (nm : String) : String :=
  match XNode.findFirst nm tag with
  | some found => pyStrip (XNode.allText found)
  | none => "Unknown"

/-- The `for party in msg.find_all('Party'): if party.get('role') == 'From':
from_party = party.text.strip()` loop of `_parse_format_A` (the last matching
party wins, starting from `"Unknown"`). -/
def fromParty (tag : XNode) : String :=
  (XNode.findAll "Party" tag).foldl
    (fun acc party =>
      if XNode.attr "role" party = some "From" then pyStrip (XNode.allText party) else acc)
    "Unknown"

/-- One Schema A `Message` element → chat dict. -/
def chatOfMessage (msg : XNode) : Record :=
  .chat (find_text msg "TimeStamp") (fromParty msg) (find_text msg "Body")

/-- One Schema A `Call` element → call dict. -/
def callOfCall (c : XNode) : Record :=
  .call (find_text c "TimeStamp") (find_text c "Direction") (fromParty c)

/-- One Schema A `Contact` element → contact dict. -/
def contactOfContact (c : XNode) : Record :=
  .contact (find_text c "Name") (find_text c "Phone")

/-- `_parse_format_A`: chats, then calls, then contacts, each in document
order. -/
def parse_format_A (soup : XNode) : List Record :=
  (XNode.findAll "Message" soup).map chatOfMessage
    ++ (XNode.findAll "Call" soup).map callOfCall
    ++ (XNode.findAll "Contact" soup).map contactOfContact

/-- The Schema B sender rule of `_parse_format_B`:
`find_text(msg,'sender') if find_text(msg,'direction') == 'incoming' else
'Device Owner'`. -/
def smsSender (m : XNode) : String :=
  if find_text m "direction" = "incoming" then find_text m "sender" else "Device Owner"

/-- One Schema B `sms` element → chat dict. -/
def chatOfSms (m : XNode) : Record :=
  .chat (find_text m "timestamp") (smsSender m) (find_text m "body")

/-- One Schema B `call_record` element → call dict. -/
def callOfCallRecord (c : XNode) : Record :=
  .call (find_text c "date") (find_text c "type") (find_text c "number")

/-- `_parse_format_B`: chats then calls, never contacts. -/
def parse_format_B (soup : XNode) : List Record :=
  (XNode.findAll "sms" soup).map chatOfSms
    ++ (XNode.findAll "call_record" soup).map callOfCallRecord

/-- Schema tag returned by `detect_format`. -/
inductive Fmt where
  | A
  | B
deriving DecidableEq, Repr

/-- `detect_format(soup)`: `'A'` if `soup.find('Chats')` is truthy (a bs4 Tag
is always truthy), else `'B'` if `soup.find('sms_messages')` is truthy, else
`None`. -/
def detect_format (soup : XNode) : Option Fmt :=
  if (XNode.findFirst "Chats" soup).isSome then some Fmt.A
  else if (XNode.findFirst "sms_messages" soup).isSome then some Fmt.B
  else none

/-- The `ValueError` message when no XML member is found (also raised when the
first XML member's bytes are empty, since `if not xml_content` treats `b""`
like `None`). -/
def noXmlMsg : String := "No XML file found in the UFDR ZIP archive."

/-- The `ValueError` message when neither schema marker is present. -/
def unsupportedMsg : String := "Unknown or unsupported XML report format."

/-- `filename.lower().endswith('.xml')`, modelled over the character list
(ASCII lowercasing, which covers the member names in question). -/
def isXmlName (nm : String) : Bool :=
  decide ((nm.data.map Char.toLower).reverse.take 4 = ".xml".data.reverse)

/-- The member-scan loop of `parse_ufdr`: walk the archive's name list in
order, read the first member whose name ends in `.xml` (case-insensitively),
stop there (`break`); `none` when no such member exists. -/
def firstXmlContent (zipEntries : List (String × String)) : Option String :=
  (zipEntries.find? (fun e => isXmlName e.1)).map Prod.snd

/-- Format dispatch of `parse_ufdr` after the soup is built. -/
def parseSoup (soup : XNode) : Except String (List Record) :=
  match detect_format soup with
  | some Fmt.A => .ok (parse_format_A soup)
  | some Fmt.B => .ok (parse_format_B soup)
  | none => .error unsupportedMsg

/-- `parse_ufdr(file_path)`.  `parseXml` models `BeautifulSoup(content,
'xml')`, which parses with `lxml` in `recover=True` mode and therefore never
raises — a total function.  `zipEntries` is the archive's member list in
archive order. -/
def parse_ufdr (parseXml : String → XNode) (zipEntries : List (String × String)) :
    Except String (List Record) :=
  match firstXmlContent zipEntries with
  | none => .error noXmlMsg
  | some content =>
      if content = "" then .error noXmlMsg
      else parseSoup (parseXml content)

/-- The record→chunk text projection of `build_database` step 1. -/
def project : Record → String
  | .chat timestamp sender content =>
      "Chat from " ++ sender ++ " at " ++ timestamp ++ ": " ++ content
  | .call timestamp direction number_or_contact =>
      "Call log at " ++ timestamp ++ ": " ++ direction ++ " call with " ++ number_or_contact
  | .contact name number =>
      "Contact entry: Name is " ++ name ++ ", Number is " ++ number
  | .other dump => dump

/-- `texts_to_embed` as assembled by the loop of `build_database` step 1. -/
def texts_to_embed (parsed_data : List Record) : List String :=
  parsed_data.map project

/-- The session state produced by `build_database`: the FAISS index (its
vector list, in insertion order) and the sqlite `chunks` table (its rows in
ascending-id order, exactly `enumerate(texts_to_embed)`). -/
structure Session where
  index : List (List Int)
  store : List (Nat × String)
deriving DecidableEq, Repr

/-- `build_database(parsed_data)` with the embedding model abstracted as
`embed`: `model.encode` maps the text list elementwise (order- and
length-preserving), `index.add` inserts the vectors in order, and the sqlite
table receives `enumerate(texts_to_embed)`. -/
def build_database (embed : String → List Int) (parsed_data : List Record) : Session :=
  let texts := texts_to_embed parsed_data
  { index := texts.map embed, store := texts.enum }

/-- The on-disk `report_data.db` state. -/
inductive DbFile where
  | absent
  | table (rows : List (Nat × String))
deriving DecidableEq, Repr

/-- `if os.path.exists(db_file): os.remove(db_file)`. -/
def removeIfExists : DbFile → DbFile
  | .absent => .absent
  | .table _ => .absent

/-- `CREATE TABLE IF NOT EXISTS chunks (...)`. -/
def createTableIfNotExists : DbFile → DbFile
  | .absent => .table []
  | .table rows => .table rows

/-- `cursor.executemany('INSERT INTO chunks (id, content) VALUES (?, ?)',
enumerate(texts_to_embed))`: appends the enumerated rows to the table. -/
def insertChunks (db : DbFile) (chunks : List String) : DbFile :=
  match db with
  | .absent => .absent
  | .table rows => .table (rows ++ chunks.enum)

/-- The sqlite part of `build_database` (steps 4): remove the old db file,
create the table, bulk-insert the enumerated chunks. -/
def rebuildStore (db : DbFile) (chunks : List String) : DbFile :=
  insertChunks (createTableIfNotExists (removeIfExists db)) chunks

/-- Squared L2 distance, the `IndexFlatL2` metric. -/
def l2sq (u v : List Int) : Int :=
  (u.zipWith (fun a b => (a - b) * (a - b)) v).sum

/-- Comparison used to order search results: ascending distance, ties by
ascending position.  Pairs are `(position, distance)`. -/
def knnLE (a b : Int × Int) : Prop :=
  a.2 < b.2 ∨ (a.2 = b.2 ∧ a.1 ≤ b.1)

instance : DecidableRel knnLE := fun a b => by
  unfold knnLE
  infer_instance

instance : IsTotal (Int × Int) knnLE := by
  constructor
  intro a b
  unfold knnLE
  omega

instance : IsTrans (Int × Int) knnLE := by
  constructor
  intro a b c
  unfold knnLE
  omega

/-- FLT_MAX, the distance FAISS reports for padding slots. -/
def fltMax : Int := 340282346638528859811704183484516925440

/-- FAISS `IndexFlatL2.search(q, k)` (documented semantics): exact squared-L2
distances to every stored vector, the `min k ntotal` nearest returned by
ascending distance, and — whenever the index holds fewer than `k` vectors —
the result padded to exactly `k` entries with label `-1` and FLT_MAX. -/
def knnSearch (xs : List (List Int)) (q : List Int) (k : Nat) : List (Int × Int) :=
  let cands := xs.enum.map (fun p => ((p.1 : Int), l2sq q p.2))
  (List.insertionSort knnLE cands).take k
    ++ List.replicate (k - xs.length) (-1, fltMax)

/-- `SELECT content FROM chunks WHERE id IN (...)` of `query_index`: the rows
whose id occurs in the requested list, returned in storage (ascending-id)
order — sqlite walks the deduplicated sorted IN-list against the primary key;
it does not reproduce the IN-list's order.  Ids with no row (including the
`-1` FAISS padding labels) simply contribute nothing. -/
def fetchChunks (rows : List (Nat × String)) (ids : List Int) : List String :=
  (rows.filter (fun row => ids.contains ((row.1 : Nat) : Int))).map Prod.snd

/-- The retrieval half of `query_index`: embed the question (abstract `qvec`),
`search` with `k = 5`, fetch the chunk rows for the returned labels. -/
def query_retrieve (index : List (List Int)) (rows : List (Nat × String))
    (qvec : List Int) : List String :=
  fetchChunks rows ((knnSearch index qvec 5).map Prod.fst)

/-- Cross-request server state touched by the upload and query handlers of
`main.py`.  Each persisted artifact is tagged with the generation number of
the report whose data it currently holds: `idxFileGen` for
`report_index.faiss`, `dbGen` for `report_data.db`, `loadedIdxGen` for the
in-memory `ml_models["faiss_index"]`.  `observed` collects the
(loaded-index generation, db generation) pairs each query read. -/
structure ServerState where
  idxFileGen : Nat
  dbGen : Nat
  loadedIdxGen : Nat
  observed : List (Nat × Nat)
deriving DecidableEq, Repr

/-- The atomic session-state actions of `main.py`: `faiss.write_index` and the
sqlite rebuild inside `build_database`, the `faiss.read_index` reload in the
upload handler, and a query reading the loaded index plus the db file.
`main.py` takes no lock of any kind, so a query may run between any two of
the upload handler's actions. -/
inductive ServerAction where
  | writeIndexFile (g : Nat)
  | writeDb (g : Nat)
  | loadIndex
  | query
deriving DecidableEq, Repr

/-- Effect of one action on the server state. -/
def serverStep (s : ServerState) : ServerAction → ServerState
  | .writeIndexFile g => { s with idxFileGen := g }
  | .writeDb g => { s with dbGen := g }
  | .loadIndex => { s with loadedIdxGen := s.idxFileGen }
  | .query => { s with observed := s.observed ++ [(s.loadedIdxGen, s.dbGen)] }

/-- The session-replacing actions of one `/upload` request handling report
generation `g`, in the order `main.py` performs them: `build_database` writes
the FAISS index file, then rebuilds the sqlite store, then the handler
reloads the index into `ml_models`. -/
def uploadSteps (g : Nat) : List ServerAction :=
  [.writeIndexFile g, .writeDb g, .loadIndex]

/-- Run a schedule of actions from a state. -/
def runServer (s : ServerState) (acts : List ServerAction) : ServerState :=
  acts.foldl serverStep s

/-- Fresh server state. -/
def initialServerState : ServerState := ⟨0, 0, 0, []⟩

/-- Positional enumeration commutes with mapping the payload. -/
theorem enumFrom_map_pair {α β : Type} (f : α → β) :
    ∀ (n : Nat) (l : List α),
      List.enumFrom n (l.map f) = (List.enumFrom n l).map (fun p => (p.1, f p.2))
  | _, [] => rfl
  | n, a :: t => by
      simp [List.enumFrom, enumFrom_map_pair f (n + 1) t]

/-- Claim C1: after a successful build from a parsed record list of length N,
the vector index has exactly N entries, the chunk store's row ids are exactly
0..N-1, and the row at position i holds exactly the text projection of record
i (the index/store positional bijection). -/
theorem spec_c1 (embed : String → List Int) (parsed_data : List Record) :
    (build_database embed parsed_data).index.length = parsed_data.length
      ∧ (build_database embed parsed_data).store.map Prod.fst
          = List.range parsed_data.length
      ∧ (build_database embed parsed_data).store
          = parsed_data.enum.map (fun p => (p.1, project p.2)) := by
  refine ⟨by simp [build_database, texts_to_embed], ?_, ?_⟩
  · simp [build_database, texts_to_embed, List.enum_map_fst]
  · simp only [build_database, texts_to_embed, List.enum]
    exact enumFrom_map_pair project 0 parsed_data

/-- Claim C7: the sqlite rebuild inside `build_database` removes any existing
db file before recreating and repopulating it, so building twice from the
same parsed data leaves the store identical to a single build, and the
resulting table holds exactly the enumerated chunks whatever was there
before. -/
theorem spec_c7 (db : DbFile) (parsed_data : List Record) :
    rebuildStore (rebuildStore db (texts_to_embed parsed_data)) (texts_to_embed parsed_data)
        = rebuildStore db (texts_to_embed parsed_data)
      ∧ rebuildStore db (texts_to_embed parsed_data)
          = .table (texts_to_embed parsed_data).enum := by
  cases db <;>
    simp [rebuildStore, removeIfExists, createTableIfNotExists, insertChunks]

/-- Claim C8: `main.py` guards the session replacement with no lock, so the
build path and the query path are NOT mutually exclusive: there is a split of
the second upload's step sequence such that a query scheduled at the split
observes the loaded index of report 1 paired with the chunk store of report 2
— the mixed pairing the specification's exclusive-lock requirement rules
out. -/
theorem spec_c8 :
    ∃ pre post, pre ++ post = uploadSteps 2
      ∧ (runServer initialServerState
            (uploadSteps 1 ++ pre ++ [ServerAction.query] ++ post)).observed
          = [(1, 2)] :=
  ⟨[.writeIndexFile 2, .writeDb 2], [.loadIndex], rfl, rfl⟩

/-- Members whose names do not end in `.xml` are skipped by the scan loop. -/
theorem firstXml_append_of_no_xml (pre rest : List (String × String)) :
    (∀ e ∈ pre, isXmlName e.1 = false) →
    firstXmlContent (pre ++ rest) = firstXmlContent rest := by
  induction pre with
  | nil => intro _; rfl
  | cons a t ih =>
      intro hpre
      have ha : isXmlName a.1 = false := hpre a (List.mem_cons_self a t)
      have ht : ∀ e ∈ t, isXmlName e.1 = false :=
        fun e he => hpre e (List.mem_cons_of_mem a he)
      simpa [firstXmlContent, List.find?_cons, ha] using ih ht

/-- The scan loop stops (`break`) at the first `.xml`-named member. -/
theorem firstXml_cons_xml (n c : String) (post : List (String × String))
    (hn : isXmlName n = true) :
    firstXmlContent ((n, c) :: post) = some c := by
  simp [firstXmlContent, List.find?_cons, hn]

/-- Claim C9: `parse_ufdr` reads only the first member (in archive order)
whose name ends in `.xml` case-insensitively — the members after it are never
considered, so replacing them changes nothing — and when that first XML
member's content is empty the no-report-found error is raised even though an
XML member exists. -/
theorem spec_c9 (parseXml : String → XNode) (pre post post' : List (String × String))
    (n c : String) (hpre : ∀ e ∈ pre, isXmlName e.1 = false)
    (hn : isXmlName n = true) :
    parse_ufdr parseXml (pre ++ (n, c) :: post)
        = parse_ufdr parseXml (pre ++ (n, c) :: post')
      ∧ (c = "" → parse_ufdr parseXml (pre ++ (n, c) :: post) = .error noXmlMsg) := by
  have h1 : firstXmlContent (pre ++ (n, c) :: post) = some c := by
    rw [firstXml_append_of_no_xml pre _ hpre, firstXml_cons_xml n c post hn]
  have h2 : firstXmlContent (pre ++ (n, c) :: post') = some c := by
    rw [firstXml_append_of_no_xml pre _ hpre, firstXml_cons_xml n c post' hn]
  constructor
  · simp [parse_ufdr, h1, h2]
  · intro hc
    subst hc
    simp [parse_ufdr, h1]

/-- Witness for claim C9 at a concrete archive: a non-XML first member, an
empty upper-case `.xml` member, and a later well-formed XML member that is
never reached. -/
theorem spec_c9_witness :
    parse_ufdr (fun _ => XNode.elem "[document]" [] [])
        ([("readme.txt", "hi")] ++ ("REPORT.XML", "") :: [("later.xml", "<Chats/>")])
      = .error noXmlMsg :=
  (spec_c9 (fun _ => XNode.elem "[document]" [] [])
      [("readme.txt", "hi")] [("later.xml", "<Chats/>")] []
      "REPORT.XML" "" (by decide) (by decide)).2 rfl

/-- A record is a contact entry (`'type': 'contact'` dict). -/
def Record.isContact : Record → Bool
  | .contact _ _ => true
  | _ => false

/-- The Schema B extractor never emits a contact record. -/
theorem parse_format_B_no_contact (soup : XNode) :
    ∀ r ∈ parse_format_B soup, r.isContact = false := by
  intro r hr
  simp only [parse_format_B, List.mem_append, List.mem_map] at hr
  rcases hr with ⟨m, _, rfl⟩ | ⟨m, _, rfl⟩ <;> rfl

/-- Claim C2: for an archive whose first XML member parses to `doc`, a
`Chats` marker selects the Schema A extraction (chats, then calls, then
contacts, concatenated in that order); otherwise an `sms_messages` marker
selects the Schema B extraction (chats then calls, never a contact record);
with neither marker the unsupported-format error is raised. -/
theorem spec_c2 (parseXml : String → XNode) (z : List (String × String)) (c : String)
    (doc : XNode) (hz : firstXmlContent z = some c) (hc : c ≠ "")
    (hdoc : parseXml c = doc) :
    ((XNode.findFirst "Chats" doc).isSome = true →
        parse_ufdr parseXml z =
          .ok ((XNode.findAll "Message" doc).map chatOfMessage
            ++ (XNode.findAll "Call" doc).map callOfCall
            ++ (XNode.findAll "Contact" doc).map contactOfContact))
      ∧ ((XNode.findFirst "Chats" doc).isSome = false →
          (XNode.findFirst "sms_messages" doc).isSome = true →
            parse_ufdr parseXml z =
              .ok ((XNode.findAll "sms" doc).map chatOfSms
                ++ (XNode.findAll "call_record" doc).map callOfCallRecord)
            ∧ ∀ r ∈ parse_format_B doc, r.isContact = false)
      ∧ ((XNode.findFirst "Chats" doc).isSome = false →
          (XNode.findFirst "sms_messages" doc).isSome = false →
            parse_ufdr parseXml z = .error unsupportedMsg) := by
  have hp : parse_ufdr parseXml z = parseSoup doc := by
    simp [parse_ufdr, hz, hc, hdoc]
  refine ⟨?_, ?_, ?_⟩
  · intro hA
    rw [hp]
    simp [parseSoup, detect_format, hA, parse_format_A]
  · intro hA hB
    have hres : parse_ufdr parseXml z = .ok (parse_format_B doc) := by
      rw [hp]
      simp [parseSoup, detect_format, hA, hB]
    exact ⟨by rw [hres]; simp [parse_format_B], parse_format_B_no_contact doc⟩
  · intro hA hB
    rw [hp]
    simp [parseSoup, detect_format, hA, hB]

/-- A concrete Schema A document: one message from Alice. -/
def docA1 : XNode :=
  .elem "[document]" [] [
    .elem "Chats" [] [
      .elem "Message" [] [
        .elem "TimeStamp" [] [.text "2024-01-01T10:00"],
        .elem "Party" [("role", "From")] [.text "Alice"],
        .elem "Body" [] [.text "Hello"]]]]

/-- Witness for claim C2 at a concrete archive parsing to `docA1`. -/
theorem spec_c2_witness :
    parse_ufdr (fun _ => docA1) [("report.xml", "<Chats>")]
      = .ok [Record.chat "2024-01-01T10:00" "Alice" "Hello"] :=
  (((spec_c2 (fun _ => docA1) [("report.xml", "<Chats>")] "<Chats>" docA1 rfl
      (by decide) rfl).1) (by decide)).trans (congrArg Except.ok (by decide))

/-- Claim C10: format detection gives Schema A strict precedence — a document
holding both a `Chats` and an `sms_messages` marker dispatches to the Schema
A extractor only, so its `sms` and `call_record` elements produce no records:
the output counts only `Message`, `Call` and `Contact` elements. -/
theorem spec_c10 (doc : XNode)
    (hA : (XNode.findFirst "Chats" doc).isSome = true)
    (_hB : (XNode.findFirst "sms_messages" doc).isSome = true) :
    parseSoup doc = .ok (parse_format_A doc)
      ∧ (parse_format_A doc).length =
          (XNode.findAll "Message" doc).length + (XNode.findAll "Call" doc).length
            + (XNode.findAll "Contact" doc).length := by
  constructor
  · simp [parseSoup, detect_format, hA]
  · simp only [parse_format_A, List.length_append, List.length_map]

/-- A concrete document with both markers: one Schema A message and one
Schema B sms. -/
def docBoth : XNode :=
  .elem "[document]" [] [
    .elem "Chats" [] [
      .elem "Message" [] [
        .elem "TimeStamp" [] [.text "t1"],
        .elem "Party" [("role", "From")] [.text "Bob"],
        .elem "Body" [] [.text "hi"]]],
    .elem "sms_messages" [] [
      .elem "sms" [] [
        .elem "timestamp" [] [.text "t2"],
        .elem "sender" [] [.text "Carol"],
        .elem "direction" [] [.text "incoming"],
        .elem "body" [] [.text "yo"]]]]

/-- Witness for claim C10: on `docBoth` the sms element contributes no
record. -/
theorem spec_c10_witness :
    parseSoup docBoth = .ok [Record.chat "t1" "Bob" "hi"] :=
  ((spec_c10 docBoth (by decide) (by decide)).1).trans (congrArg Except.ok (by decide))

/-- The empty document an `lxml` `recover=True` parse yields for content
with no salvageable element (e.g. `"<<<not xml"`); `BeautifulSoup(content,
'xml')` returns it instead of raising. -/
def recoveredEmptyDoc : XNode := .elem "[document]" [] []

/-- Claim C5 (amended): `BeautifulSoup(content, 'xml')` recovers from
ill-formed markup instead of raising, and `parse_ufdr` has no malformed-report
error path at all — whatever the archive and whatever document the (total)
XML parse yields, a failure is either the no-report-found error or the
unsupported-format error. -/
theorem spec_c5_amended (parseXml : String → XNode) (z : List (String × String))
    (e : String) (h : parse_ufdr parseXml z = .error e) :
    e = noXmlMsg ∨ e = unsupportedMsg := by
  unfold parse_ufdr at h
  split at h
  · exact Or.inl (Except.error.inj h).symm
  · split at h
    · exact Or.inl (Except.error.inj h).symm
    · unfold parseSoup at h
      split at h
      · exact absurd h (by simp)
      · exact absurd h (by simp)
      · exact Or.inr (Except.error.inj h).symm

/-- Witness for claim C5 (amended) at the empty archive. -/
theorem spec_c5_amended_witness : noXmlMsg = noXmlMsg ∨ noXmlMsg = unsupportedMsg :=
  spec_c5_amended (fun _ => recoveredEmptyDoc) [] noXmlMsg rfl

/-- Counterexample to claim C5 as stated: an archive whose XML member holds
markup that is not well-formed does not fail with a malformed-report error —
the lenient parse recovers, neither marker is found, and the parse fails with
precisely the unsupported-format error the claim excludes. -/
theorem spec_c5_counterexample :
    parse_ufdr (fun _ => recoveredEmptyDoc) [("report.xml", "<<<not xml")]
      = .error unsupportedMsg := rfl

/-- Claim C6 (amended): the i-th chat record the Schema B extractor produces
comes from the i-th `sms` element, with sender `find_text(m,'sender')` when
`find_text(m,'direction') = "incoming"` and the fixed `"Device Owner"` in
every other case (including an absent `direction` child, whose lookup yields
`"Unknown"`). -/
theorem spec_c6_amended (soup : XNode) (i : Nat) (m : XNode)
    (h : (XNode.findAll "sms" soup)[i]? = some m) :
    (parse_format_B soup)[i]? =
        some (Record.chat (find_text m "timestamp") (smsSender m) (find_text m "body"))
      ∧ (find_text m "direction" = "incoming" → smsSender m = find_text m "sender")
      ∧ (find_text m "direction" ≠ "incoming" → smsSender m = "Device Owner")
      ∧ (XNode.findFirst "direction" m = none → smsSender m = "Device Owner") := by
  have hi : i < (XNode.findAll "sms" soup).length := by
    cases hlt : Nat.decLt i (XNode.findAll "sms" soup).length with
    | isTrue hT => exact hT
    | isFalse hF =>
        rw [List.getElem?_eq_none (Nat.le_of_not_lt hF)] at h
        exact absurd h (by simp)
  refine ⟨?_, ?_, ?_, ?_⟩
  · rw [parse_format_B, List.getElem?_append_left (by simpa using hi),
      List.getElem?_map, h]
    rfl
  · intro hdir
    simp [smsSender, hdir]
  · intro hdir
    simp [smsSender, hdir]
  · intro hdir
    have : find_text m "direction" = "Unknown" := by
      simp [find_text, hdir]
    simp [smsSender, this]

/-- A Schema B `sms` element whose sender text happens to be the fixed label
and whose direction is outgoing. -/
def smsBoth : XNode :=
  .elem "sms" [] [
    .elem "timestamp" [] [.text "t"],
    .elem "sender" [] [.text "Device Owner"],
    .elem "direction" [] [.text "outgoing"],
    .elem "body" [] [.text "b"]]

/-- A Schema B document containing only `smsBoth`. -/
def docSmsBoth : XNode :=
  .elem "[document]" [] [.elem "sms_messages" [] [smsBoth]]

/-- Witness for claim C6 (amended) on `docSmsBoth`. -/
theorem spec_c6_amended_witness :
    (parse_format_B docSmsBoth)[0]? =
      some (Record.chat (find_text smsBoth "timestamp") (smsSender smsBoth)
        (find_text smsBoth "body")) :=
  (spec_c6_amended docSmsBoth 0 smsBoth rfl).1

/-- Counterexample to claim C6 as stated: for `smsBoth` the direction is
`"outgoing"`, yet the produced sender `"Device Owner"` coincides with the
trimmed text of the `sender` child — so "sender equals the trimmed sender
text if and only if direction is incoming" is false: the equality holds while
the direction condition does not. -/
theorem spec_c6_counterexample :
    ((XNode.findFirst "sender" smsBoth).isSome = true
      ∧ find_text smsBoth "sender" = "Device Owner"
      ∧ find_text smsBoth "direction" = "outgoing"
      ∧ parse_format_B docSmsBoth = [Record.chat "t" "Device Owner" "b"])
      ∧ ¬ (smsSender smsBoth = find_text smsBoth "sender"
            ↔ find_text smsBoth "direction" = "incoming") := by decide

/-- Claim C3 (amended): `query_index` assembles as context the stored chunks
whose positions occur among the hit positions, but in storage
(ascending-position) order, not in hit (nearest-first) order — the
`WHERE id IN (...)` query returns rows in table order; hit positions with no
corresponding row simply contribute nothing to the output (no failure, and
also no logged warning in the code).  Formally: the fetched list is a
sublist of the stored chunk column; each fetched text is a stored chunk at a
requested position; and dropping a position no row carries leaves the output
unchanged. -/
theorem spec_c3_amended (rows : List (Nat × String)) (ids : List Int) (j : Int)
    (hj : ∀ row ∈ rows, ((row.1 : Nat) : Int) ≠ j) :
    List.Sublist (fetchChunks rows ids) (rows.map Prod.snd)
      ∧ (∀ t ∈ fetchChunks rows ids,
          ∃ i, (i, t) ∈ rows ∧ ids.contains ((i : Nat) : Int) = true)
      ∧ fetchChunks rows (ids.filter (fun x => x != j)) = fetchChunks rows ids := by
  refine ⟨?_, ?_, ?_⟩
  · exact (List.filter_sublist rows).map Prod.snd
  · intro t ht
    simp only [fetchChunks, List.mem_map, List.mem_filter] at ht
    rcases ht with ⟨row, ⟨hrow, hmem⟩, hsnd⟩
    exact ⟨row.1, by rw [← hsnd, Prod.mk.eta]; exact hrow, hmem⟩
  · unfold fetchChunks
    refine congrArg (List.map Prod.snd) (List.filter_congr ?_)
    intro row hrow
    have hne := hj row hrow
    have : ∀ (l : List Int), (l.filter (fun x => x != j)).contains ((row.1 : Nat) : Int)
        = l.contains ((row.1 : Nat) : Int) := by
      intro l
      induction l with
      | nil => rfl
      | cons a t ih =>
          rw [List.filter_cons, List.contains_cons]
          by_cases ha : a = j
          · rw [if_neg (by simp [bne_iff_ne, ha]), ih]
            have hba : (((row.1 : Nat) : Int) == a) = false :=
              beq_eq_false_iff_ne.mpr (fun hx => hne (hx.trans ha))
            rw [hba, Bool.false_or]
          · rw [if_pos (by simp [bne_iff_ne, ha]), List.contains_cons, ih]
    exact this ids

/-- A three-vector index whose nearest neighbour to `qv3` is position 2. -/
def idx3 : List (List Int) := [[0], [10], [1]]

/-- The chunk rows paired with `idx3`. -/
def store3 : List (Nat × String) := [(0, "c0"), (1, "c1"), (2, "c2")]

/-- A query vector for which the hit order over `idx3` is 2, 0, 1. -/
def qv3 : List Int := [2]

/-- Counterexample to claim C3 as stated: with hit order 2, 0, 1 (then two
`-1` padding labels) the context texts come back in store order
`["c0", "c1", "c2"]`, not in the hit order `["c2", "c0", "c1"]` the claim
requires. -/
theorem spec_c3_counterexample :
    ((knnSearch idx3 qv3 5).map Prod.fst = [2, 0, 1, -1, -1]
      ∧ query_retrieve idx3 store3 qv3 = ["c0", "c1", "c2"])
      ∧ ¬ query_retrieve idx3 store3 qv3 = ["c2", "c0", "c1"] := by decide

/-- Witness for claim C3 (amended) on the concrete store `store3` with the
padding label `-1` among the requested ids. -/
theorem spec_c3_amended_witness :
    fetchChunks store3 (List.filter (fun x => x != (-1 : Int)) [2, 0, -1])
      = fetchChunks store3 [2, 0, -1] :=
  (spec_c3_amended store3 [2, 0, -1] (-1) (by decide)).2.2

/-- Claim C4 (amended): `IndexFlatL2.search(q, k)` always returns exactly `k`
(position, distance) pairs: the first `min k N` of them are drawn from the
index's candidate set and ordered by ascending distance with ties broken by
ascending position, and when the index holds `N < k` vectors the remaining
`k - N` pairs are `(-1, FLT_MAX)` padding — not omitted. -/
theorem spec_c4_amended (xs : List (List Int)) (q : List Int) (k : Nat) :
    (knnSearch xs q k).length = k
      ∧ List.Sorted knnLE ((knnSearch xs q k).take (min k xs.length))
      ∧ (knnSearch xs q k).drop (min k xs.length)
          = List.replicate (k - xs.length) (-1, fltMax)
      ∧ ∀ p ∈ (knnSearch xs q k).take (min k xs.length),
          p ∈ xs.enum.map (fun e => ((e.1 : Int), l2sq q e.2)) := by
  have hlen : (List.insertionSort knnLE
      (xs.enum.map (fun p => ((p.1 : Int), l2sq q p.2)))).length = xs.length := by
    rw [List.length_insertionSort, List.length_map, List.enum_length]
  have htake : ((List.insertionSort knnLE
      (xs.enum.map (fun p => ((p.1 : Int), l2sq q p.2)))).take k).length
        = min k xs.length := by
    rw [List.length_take, hlen]
  refine ⟨?_, ?_, ?_, ?_⟩
  · simp only [knnSearch, List.length_append, List.length_take, List.length_replicate, hlen]
    omega
  · rw [knnSearch, List.take_left' htake]
    exact List.Pairwise.sublist (List.take_sublist k _)
      (List.sorted_insertionSort knnLE _)
  · rw [knnSearch, List.drop_left' htake]
  · intro p hp
    rw [knnSearch, List.take_left' htake] at hp
    exact (List.perm_insertionSort knnLE _).subset (List.take_subset k _ hp)

/-- Counterexample to claim C4 as stated: a search with `k = 5` against an
index holding 3 vectors returns five pairs — the three true neighbours by
ascending distance followed by two `(-1, FLT_MAX)` padding entries — not
"exactly 3 results". -/
theorem spec_c4_counterexample :
    ((knnSearch [[0], [1], [2]] [0] 5).length = 5
      ∧ knnSearch [[0], [1], [2]] [0] 5
          = [(0, 0), (1, 1), (2, 4), (-1, fltMax), (-1, fltMax)])
      ∧ ¬ (knnSearch [[0], [1], [2]] [0] 5).length = 3 := by decide

/-- Witness for claim C4 (amended): the top pair of a concrete two-vector
search is one of the index's candidate pairs. -/
theorem spec_c4_amended_witness :
    ((0 : Int), (0 : Int)) ∈ (List.enum [[0], [1]]).map
      (fun e => ((e.1 : Int), l2sq [(0 : Int)] e.2)) :=
  (spec_c4_amended [[0], [1]] [0] 3).2.2.2 (0, 0) (by decide)
